import Mathlib

/-!
# Verification of the ESG scoring pipeline

Shallow embedding of the scoring, extraction-validation, recommendation and
cache-gate logic of the multi-agent company research repository:

* `src/analysis/scorer.py`    — `SustainabilityScorer`
* `src/analysis/extractor.py` — `MetricsExtractor`
* `src/reports/pdf_generator.py` and `src/ui/components/sidebar.py` — the
  duplicated score-level functions
* `src/database/db_manager.py` — `DatabaseManager.get_recent_analysis`

Python floats are modelled as rationals (`ℚ`); every numeric value that the
claims exercise is far from any binary-float rounding boundary, so the
rational model and the float program agree on all inputs appearing below.
Python's `round(x, 2)` (round-half-to-even, 2 decimal digits) is modelled
exactly by `round2`.  Fallible Python code (KeyError on `m['field']`) is
modelled in `Except String`.
-/

namespace ESG

/-- Round-half-to-even to an integer, Python's `round(x)` on an exact value. -/
def rint (q : ℚ) : ℤ :=
  if q - ⌊q⌋ < 1/2 then ⌊q⌋
  else if 1/2 < q - ⌊q⌋ then ⌊q⌋ + 1
  else if ⌊q⌋ % 2 = 0 then ⌊q⌋ else ⌊q⌋ + 1

/-- Python's `round(x, 2)`: round to 2 decimal digits, ties to even. -/
def round2 (q : ℚ) : ℚ := (rint (q * 100) : ℚ) / 100

/-! ## Score levels

`SustainabilityScorer.SCORE_LEVELS` (scorer.py lines 66–72) is a dict of
closed integer ranges, iterated in insertion order by `_get_score_level`
(lines 249–273), with a `"Unknown"` fallback when no range matches.
-/

/-- Embeds `SustainabilityScorer.SCORE_LEVELS`: label, (min_score, max_score). -/
def SCORE_LEVELS : List (String × ℚ × ℚ) :=
  [("Excellent", 85, 100),
   ("Good", 70, 84),
   ("Fair", 50, 69),
   ("Poor", 30, 49),
   ("Very Poor", 0, 29)]

/-- The `for level, (min_score, max_score) in SCORE_LEVELS.items()` loop of
`_get_score_level`: return the first label whose closed range contains the
score, else `"Unknown"`. -/
def levelsLookup : List (String × ℚ × ℚ) → ℚ → String
  | [], _ => "Unknown"
  | (level, mn, mx) :: rest, score =>
      if mn ≤ score ∧ score ≤ mx then level else levelsLookup rest score

/-- Embeds `SustainabilityScorer._get_score_level` (scorer.py lines 249–273). -/
def scorer_get_score_level (score : ℚ) : String := levelsLookup SCORE_LEVELS score

/-- Embeds `PDFGenerator._get_score_level` (pdf_generator.py lines 596–615):
a total `>=`-cascade. -/
def pdf_get_score_level (score : ℚ) : String :=
  if score ≥ 85 then "Excellent"
  else if score ≥ 70 then "Good"
  else if score ≥ 50 then "Fair"
  else if score ≥ 30 then "Poor"
  else "Very Poor"

/-- Embeds `get_score_level` in sidebar.py (lines 27–50): textually the same
`>=`-cascade as the PDF generator's copy. -/
def sidebar_get_score_level (score : ℚ) : String :=
  if score ≥ 85 then "Excellent"
  else if score ≥ 70 then "Good"
  else if score ≥ 50 then "Fair"
  else if score ≥ 30 then "Poor"
  else "Very Poor"

/-- The five fixed qualitative labels. -/
def fiveLabels : List String := ["Excellent", "Good", "Fair", "Poor", "Very Poor"]

/-! ## The scorer's metric dictionaries

A metric entering `SustainabilityScorer` is a Python dict that may or may not
carry each of its four keys; `none` models an absent key.  `m['k']` raises
`KeyError` on an absent key — modelled by `getKey` in `Except String` — while
`m.get('k', d)` substitutes the default. -/

structure PyMetric where
  category : Option String
  metric_name : Option String
  value : Option ℚ
  confidence : Option ℚ
  deriving Repr, DecidableEq

/-- Python `m['k']`: the value, or a `KeyError` if the key is absent. -/
def getKey {α : Type} (field : Option α) (key : String) : Except String α :=
  match field with
  | some v => Except.ok v
  | none => Except.error ("KeyError: " ++ key)

/-- The filter `[m for m in metrics if m['category'] == category]`
(scorer.py line 106): raises `KeyError` on a record missing `category`. -/
def filterCategory : List PyMetric → String → Except String (List PyMetric)
  | [], _ => Except.ok []
  | m :: ms, category =>
      match getKey m.category "category" with
      | Except.error e => Except.error e
      | Except.ok cat =>
        match filterCategory ms category with
        | Except.error e => Except.error e
        | Except.ok rest =>
          if cat = category then Except.ok (m :: rest) else Except.ok rest

/-- One entry of the `metric_details` list (scorer.py lines 144–151),
built with raising `m['metric_name']`, `m['value']`, `m['confidence']`. -/
structure MetricDetail where
  name : String
  value : ℚ
  confidence : ℚ
  deriving Repr, DecidableEq

/-- Result dict of `calculate_category_score`. -/
structure CategoryScore where
  score : ℚ
  confidence : ℚ
  metric_count : ℕ
  metrics : List MetricDetail
  deriving Repr, DecidableEq

/-- Embeds `total_weighted_score` after the loop of scorer.py lines 123–130:
`Σ value·confidence` with `.get` defaults 50 and 0.5. -/
def totalWeightedScore (ms : List PyMetric) : ℚ :=
  (ms.map (fun m => m.value.getD 50 * m.confidence.getD (1/2))).sum

/-- Embeds `total_confidence` after the same loop: `Σ confidence` with default 0.5. -/
def totalConfidence (ms : List PyMetric) : ℚ :=
  (ms.map (fun m => m.confidence.getD (1/2))).sum

/-- The `metric_details` list comprehension (scorer.py lines 144–151): each
entry reads `m['metric_name']`, `m['value']`, `m['confidence']` in that order,
raising `KeyError` at the first absent key. -/
def detailsOf : List PyMetric → Except String (List MetricDetail)
  | [] => Except.ok []
  | m :: ms =>
    match getKey m.metric_name "metric_name" with
    | Except.error e => Except.error e
    | Except.ok n =>
      match getKey m.value "value" with
      | Except.error e => Except.error e
      | Except.ok v =>
        match getKey m.confidence "confidence" with
        | Except.error e => Except.error e
        | Except.ok c =>
          match detailsOf ms with
          | Except.error e => Except.error e
          | Except.ok rest => Except.ok (⟨n, v, c⟩ :: rest)

/-- Embeds `SustainabilityScorer.calculate_category_score` (scorer.py lines 78–159).
Steps: filter to the category (raising on a missing `category` key); neutral
result on an empty filter; confidence-weighted average with `.get` defaults
(50 for `value`, 0.5 for `confidence`); detail list via raising key accesses;
rounding to 2 decimals. -/
def calculate_category_score (metrics : List PyMetric) (category : String) :
    Except String CategoryScore :=
  match filterCategory metrics category with
  | Except.error e => Except.error e
  | Except.ok category_metrics =>
    if category_metrics = [] then
      Except.ok { score := 50, confidence := 0, metric_count := 0, metrics := [] }
    else
      match detailsOf category_metrics with
      | Except.error e => Except.error e
      | Except.ok metric_details =>
        let total_confidence := totalConfidence category_metrics
        let category_score : ℚ :=
          if 0 < total_confidence then
            totalWeightedScore category_metrics / total_confidence
          else 50
        let avg_confidence : ℚ :=
          if 0 < total_confidence then total_confidence / category_metrics.length else 0
        Except.ok { score := round2 category_score,
                    confidence := round2 avg_confidence,
                    metric_count := category_metrics.length,
                    metrics := metric_details }

/-- Result dict of `calculate_final_score`.  The `component_scores` flattening
and the `calculated_at` timestamp are not modelled: no claim refers to them. -/
structure FinalScore where
  final_score : ℚ
  score_level : String
  confidence : ℚ
  environmental_score : ℚ
  social_score : ℚ
  governance_score : ℚ
  env_breakdown : CategoryScore
  soc_breakdown : CategoryScore
  gov_breakdown : CategoryScore
  deriving Repr, DecidableEq

/-- Embeds `SustainabilityScorer.calculate_final_score` (scorer.py lines 161–247).
`CATEGORY_WEIGHTS` iterates in insertion order Environmental (0.40),
Social (0.35), Governance (0.25); `total_weight` sums to 1, the `else 50.0`
branch mirrors the defensive fallback of lines 210–213.  The level is taken
from the unrounded score (line 216); `final_score` is rounded (line 227). -/
def calculate_final_score (metrics : List PyMetric) : Except String FinalScore :=
  match calculate_category_score metrics "Environmental" with
  | Except.error e => Except.error e
  | Except.ok env =>
    match calculate_category_score metrics "Social" with
    | Except.error e => Except.error e
    | Except.ok soc =>
      match calculate_category_score metrics "Governance" with
      | Except.error e => Except.error e
      | Except.ok gov =>
        let weighted_sum : ℚ :=
          env.score * (40/100) + soc.score * (35/100) + gov.score * (25/100)
        let total_weight : ℚ := 40/100 + 35/100 + 25/100
        let final_score : ℚ := if 0 < total_weight then weighted_sum / total_weight else 50
        let avg_confidence : ℚ := (env.confidence + soc.confidence + gov.confidence) / 3
        Except.ok { final_score := round2 final_score,
                    score_level := scorer_get_score_level final_score,
                    confidence := round2 avg_confidence,
                    environmental_score := env.score,
                    social_score := soc.score,
                    governance_score := gov.score,
                    env_breakdown := env,
                    soc_breakdown := soc,
                    gov_breakdown := gov }

/-! ## Recommendations

`get_recommendations` (scorer.py lines 316–379) emits formatted strings.
Their rendering (`f"Priority: Improve {category} ... {score:.1f}/100"` etc.)
is abstracted into constructors carrying the interpolated data; the four
constructors correspond one-to-one to the four distinct string templates. -/

inductive Recommendation where
  /-- Renders "Critical: Significant improvements needed across all sustainability areas". -/
  | critical
  /-- Renders "Important: Enhance sustainability practices to meet industry standards". -/
  | important
  /-- Renders the "Priority: Improve ... practices (current score: .../100)" line,
  carrying the interpolated category and score. -/
  | priority (category : String) (score : ℚ)
  /-- Renders the "Focus on: ... in ... category (score: .../100)" line, carrying the
  interpolated metric name, category and value. -/
  | focus (name : String) (category : String) (value : ℚ)
  deriving Repr, DecidableEq

/-- One iteration of the `for category in [...]` loop body (scorer.py lines
344–364): a Priority line when the category score is `< 60`, then the first 2
of this category's metrics with `value < 50`, in their stored order. -/
def categoryRecommendations (category : String) (data : CategoryScore) :
    List Recommendation :=
  (if data.score < 60 then [Recommendation.priority category data.score] else []) ++
  ((data.metrics.filter (fun m => m.value < 50)).take 2).map
    (fun m => Recommendation.focus m.name category m.value)

/-- Embeds `SustainabilityScorer.get_recommendations` (scorer.py lines 316–379):
per-category lines for Environmental, Social, Governance in that order, then
`insert(0, header)` for `final_score < 50` (Critical) or `< 70` (Important),
then truncation `[:5]`. -/
def get_recommendations (scores : FinalScore) : List Recommendation :=
  let recommendations :=
    categoryRecommendations "Environmental" scores.env_breakdown ++
    categoryRecommendations "Social" scores.soc_breakdown ++
    categoryRecommendations "Governance" scores.gov_breakdown
  let withHeader :=
    if scores.final_score < 50 then Recommendation.critical :: recommendations
    else if scores.final_score < 70 then Recommendation.important :: recommendations
    else recommendations
  withHeader.take 5

/-- Follows the spec's words for the recommendation list (§ get_recommendations):
"an overall-severity header if final_score < 70 (two tiers: <50 Critical, else
<70 Important)" placed first, "then per category in fixed order … a Priority
line if that category's score < 60, followed by up to 2 Focus lines for that
category's metrics with value < 50 (in their existing order)", and "truncate
the combined list to 5 entries total, header lines counted first". -/
def recommendationsFromSpec (scores : FinalScore) : List Recommendation :=
  ((if scores.final_score < 70 then
      [if scores.final_score < 50 then Recommendation.critical
       else Recommendation.important]
    else []) ++
   (categoryRecommendations "Environmental" scores.env_breakdown ++
    categoryRecommendations "Social" scores.soc_breakdown ++
    categoryRecommendations "Governance" scores.gov_breakdown)).take 5

/-! ## The metrics extractor (src/analysis/extractor.py)

A value inside an extractor record is any JSON value; `float(x)` accepts
numbers (and numeric strings) — modelled by `PyVal.num` — and raises
`ValueError`/`TypeError` on everything else — modelled by `PyVal.nonNum`. -/

inductive PyVal where
  | num (q : ℚ)
  | nonNum (s : String)
  deriving Repr, DecidableEq

/-- Python `float(x)`: `some` for coercible values, `none` when it raises. -/
def pyFloat : PyVal → Option ℚ
  | PyVal.num q => some q
  | PyVal.nonNum _ => none

/-- A raw metric dict coming out of the model's JSON, before validation;
`none` models an absent key. -/
structure RawMetric where
  category : Option String
  metric_name : Option String
  value : Option PyVal
  confidence : Option PyVal
  deriving Repr, DecidableEq

/-- A cleaned record appended by `_validate_metrics` (extractor.py 164–169). -/
structure ValidMetric where
  category : String
  metric_name : String
  value : ℚ
  confidence : ℚ
  deriving Repr, DecidableEq

/-- The keys of `CATEGORY_WEIGHTS` (extractor.py lines 53–57), used by the
membership test `metric['category'] not in self.CATEGORY_WEIGHTS`. -/
def CATEGORY_NAMES : List String := ["Environmental", "Social", "Governance"]

/-- Embeds `MetricsExtractor._validate_metrics` (extractor.py lines 123–171):
drop records missing one of the four required keys, drop records whose
category is not a `CATEGORY_WEIGHTS` key, clamp `value` to [0, 100]
(50.0 when `float` raises), clamp `confidence` to [0, 1] (0.5 when `float`
raises), round both to 2 decimals. -/
def validate_metrics : List RawMetric → List ValidMetric
  | [] => []
  | m :: rest =>
    match m.category, m.metric_name, m.value, m.confidence with
    | some cat, some name, some v, some c =>
      if cat ∈ CATEGORY_NAMES then
        let value : ℚ := match pyFloat v with
          | some q => max 0 (min 100 q)
          | none => 50
        let confidence : ℚ := match pyFloat c with
          | some q => max 0 (min 1 q)
          | none => 1/2
        ⟨cat, name, round2 value, round2 confidence⟩ :: validate_metrics rest
      else validate_metrics rest
    | _, _, _, _ => validate_metrics rest

/-- Embeds `METRICS_SCHEMA` (prompts/extraction_prompts.py lines 21–42). -/
def METRICS_SCHEMA : List (String × List String) :=
  [("Environmental",
    ["Carbon Emissions Reduction", "Renewable Energy Usage", "Waste Management",
     "Water Conservation", "Sustainable Materials"]),
   ("Social",
    ["Labor Practices", "Diversity and Inclusion", "Community Impact",
     "Human Rights", "Employee Well-being"]),
   ("Governance",
    ["Board Independence", "Ethics and Compliance", "Transparency and Reporting",
     "Risk Management", "Stakeholder Engagement"])]

/-- Embeds `MetricsExtractor._get_default_metrics` (extractor.py lines 173–193):
one neutral record (value 50.0, confidence 0.1) per schema entry. -/
def get_default_metrics : List ValidMetric :=
  (METRICS_SCHEMA.map (fun p => p.2.map
    (fun n => ({ category := p.1, metric_name := n, value := 50, confidence := 1/10 }
      : ValidMetric)))).flatten

/-- The observable outcome of the impure prefix of `extract_metrics`
(extractor.py lines 94–107): `failure` when `complete_json` or `json.loads`
raises (either `except` arm); `parsed d` when the response parses, `d` being
the value of the `'metrics'` key (`none` when the key is absent, in which
case `data.get('metrics', [])` yields `[]`). -/
inductive ExtractionOutcome where
  | failure
  | parsed (metricsField : Option (List RawMetric))
  deriving Repr, DecidableEq

/-- Embeds `MetricsExtractor.extract_metrics` (extractor.py lines 65–121) as a
function of the impure outcome: both `except` arms return the default set,
so no error reaches the caller; a parsed response is validated. -/
def extract_metrics : ExtractionOutcome → List ValidMetric
  | ExtractionOutcome.failure => get_default_metrics
  | ExtractionOutcome.parsed d => validate_metrics (d.getD [])

/-! ## The cache gate (src/database/db_manager.py, lines 403–461)

`get_recent_analysis` reads four per-company views of the SQLite store:
`get_company` (`company`), `get_research_sources` (`sources`), `get_metrics`
(`metrics`) and `get_latest_score` (`score`).  `CacheView` bundles what those
lookups return for the queried company; rows are modelled by the parts the
gate inspects (only `research_date` is read — times are measured in days, so
`datetime.now() - timedelta(days=days)` is `now - days`). -/

structure CompanyRec where
  research_date : ℚ
  deriving Repr, DecidableEq

structure CacheView where
  company : Option CompanyRec
  sources : List String
  metrics : List String
  score : Option ℚ
  deriving Repr, DecidableEq

/-- Embeds `DatabaseManager.get_recent_analysis` (db_manager.py lines 403–461):
`None` when the company is absent, when `research_date < now - timedelta(days)`,
or when `not sources or not scores`; otherwise the 4-tuple.  The metric list
is returned but never tested. -/
def get_recent_analysis (db : CacheView) (now days : ℚ) :
    Option (CompanyRec × List String × List String × ℚ) :=
  match db.company with
  | none => none
  | some company =>
    if company.research_date < now - days then none
    else if db.sources = [] then none
    else
      match db.score with
      | none => none
      | some sc => some (company, db.sources, db.metrics, sc)

/-! ## Spec-side predicates, spec-side reference functions and example data -/

/-- A record of a "valid metric list" in the sense of the spec: all four
fields present, a recognized category, `value ∈ [0, 100]`,
`confidence ∈ [0, 1]`. -/
def ValidRecord (m : PyMetric) : Prop :=
  m.category.isSome = true ∧ m.metric_name.isSome = true ∧
  m.value.isSome = true ∧ m.confidence.isSome = true ∧
  m.category.getD "" ∈ CATEGORY_NAMES ∧
  0 ≤ m.value.getD 0 ∧ m.value.getD 0 ≤ 100 ∧
  0 ≤ m.confidence.getD 0 ∧ m.confidence.getD 0 ≤ 1

instance (m : PyMetric) : Decidable (ValidRecord m) := by
  unfold ValidRecord
  infer_instance

/-- Spec-side sum `Σ value_i × confidence_i` over the records, reading the
fields themselves (meaningful when all fields are present). -/
def sumValueTimesConfidence (l : List PyMetric) : ℚ :=
  (l.map (fun m => m.value.getD 0 * m.confidence.getD 0)).sum

/-- Spec-side sum `Σ confidence_i` over the records. -/
def sumConfidence (l : List PyMetric) : ℚ :=
  (l.map (fun m => m.confidence.getD 0)).sum

/-- All four dict keys present in every record. -/
def allKeysPresent (ms : List PyMetric) : Prop :=
  ∀ m ∈ ms, m.category.isSome = true ∧ m.metric_name.isSome = true ∧
    m.value.isSome = true ∧ m.confidence.isSome = true

/-- Follows the spec's words: a record is kept iff all four required fields
are present and its category is one of the three fixed names. -/
def keepsRecord (m : RawMetric) : Bool :=
  m.category.isSome && m.metric_name.isSome && m.value.isSome &&
  m.confidence.isSome && decide (m.category.getD "" ∈ CATEGORY_NAMES)

/-- Follows the spec's words: the cleaning of one kept record — coerce and
clamp `value` to [0, 100] (50.0 when non-coercible) and `confidence` to
[0, 1] (0.5 when non-coercible), each rounded to 2 decimals. -/
def cleanRecord (m : RawMetric) : ValidMetric :=
  { category := m.category.getD "",
    metric_name := m.metric_name.getD "",
    value := round2 (match pyFloat (m.value.getD (PyVal.nonNum "")) with
      | some q => max 0 (min 100 q)
      | none => 50),
    confidence := round2 (match pyFloat (m.confidence.getD (PyVal.nonNum "")) with
      | some q => max 0 (min 1 q)
      | none => 1/2) }

/-- Follows the spec's words: keep the sublist of well-formed records, clean
each kept record. -/
def validateMetricsFromSpec (ms : List RawMetric) : List ValidMetric :=
  (ms.filter keepsRecord).map cleanRecord

/-- A valid metric list (one full-confidence metric of value 84.99 per
category) whose final score 84.99 falls in the gap between the "Good" band
(ending at 84) and the "Excellent" band (starting at 85). -/
def c1CexMetrics : List PyMetric :=
  [⟨some "Environmental", some "E", some (8499/100), some 1⟩,
   ⟨some "Social", some "S", some (8499/100), some 1⟩,
   ⟨some "Governance", some "G", some (8499/100), some 1⟩]

/-- The spec's worked final-score example: one full-confidence metric per
category with scores 80 / 70 / 60. -/
def c5Metrics : List PyMetric :=
  [⟨some "Environmental", some "E", some 80, some 1⟩,
   ⟨some "Social", some "S", some 70, some 1⟩,
   ⟨some "Governance", some "G", some 60, some 1⟩]

/-- Rounded category scores 85.0, 85.0, 84.99 (full confidence): the raw
weighted average is 84.9975. -/
def c10Metrics : List PyMetric :=
  [⟨some "Environmental", some "E", some 85, some 1⟩,
   ⟨some "Social", some "S", some 85, some 1⟩,
   ⟨some "Governance", some "G", some (8499/100), some 1⟩]

/-! ## Rounding lemmas -/

/-- The integer rounding never goes below the floor. -/
theorem floor_le_rint (q : ℚ) : ⌊q⌋ ≤ rint q := by
  unfold rint
  split
  · exact le_refl _
  · split
    · exact le_of_lt (lt_add_one _)
    · split
      · exact le_refl _
      · exact le_of_lt (lt_add_one _)

/-- The integer rounding never goes above the ceiling. -/
theorem rint_le_ceil (q : ℚ) : rint q ≤ ⌈q⌉ := by
  unfold rint
  have hfc : ⌊q⌋ ≤ ⌈q⌉ := Int.floor_le_ceil q
  split
  · exact hfc
  · rename_i h1
    push_neg at h1
    have hlt : ⌊q⌋ < ⌈q⌉ := Int.lt_ceil.mpr (by linarith)
    split
    · omega
    · split <;> omega

/-- Integer lower bounds pass through the rounding. -/
theorem le_rint {a : ℤ} {q : ℚ} (h : (a : ℚ) ≤ q) : a ≤ rint q :=
  le_trans (Int.le_floor.mpr h) (floor_le_rint q)

/-- Integer upper bounds pass through the rounding. -/
theorem rint_le {b : ℤ} {q : ℚ} (h : q ≤ (b : ℚ)) : rint q ≤ b :=
  le_trans (rint_le_ceil q) (Int.ceil_le.mpr h)

/-- The 2-decimal rounding keeps a value inside an interval whose ends are
integer multiples of 1/100. -/
theorem round2_bounds {a b : ℤ} {q : ℚ} (h0 : (a : ℚ) ≤ q * 100)
    (h1 : q * 100 ≤ (b : ℚ)) : (a : ℚ) / 100 ≤ round2 q ∧ round2 q ≤ (b : ℚ) / 100 := by
  unfold round2
  constructor
  · apply div_le_div_of_nonneg_right _ (by norm_num)
    exact_mod_cast le_rint h0
  · apply div_le_div_of_nonneg_right _ (by norm_num)
    exact_mod_cast rint_le h1

/-! ## General lemmas about the embedded functions -/

theorem Option_getD_congr {α : Type} {o : Option α} (h : o.isSome = true) (a b : α) :
    o.getD a = o.getD b := by
  cases o with
  | none => simp at h
  | some v => rfl

/-- When every record carries its `category` key, the scorer's category filter
succeeds and is the plain list filter. -/
theorem filterCategory_eq_ok (ms : List PyMetric) (c : String)
    (h : ∀ m ∈ ms, m.category.isSome = true) :
    filterCategory ms c = Except.ok (ms.filter (fun m => m.category = some c)) := by
  induction ms with
  | nil => rfl
  | cons m rest ih =>
    obtain ⟨cat, hcat⟩ := Option.isSome_iff_exists.mp (h m (List.mem_cons_self m rest))
    have ih' := ih (fun x hx => h x (List.mem_cons_of_mem _ hx))
    by_cases hc : cat = c
    · subst hc
      simp [filterCategory, hcat, getKey, ih', List.filter_cons]
    · simp [filterCategory, hcat, getKey, ih', List.filter_cons, hc]

/-- When every record carries the three remaining keys, the detail-list
comprehension succeeds. -/
theorem detailsOf_eq_ok (l : List PyMetric)
    (h : ∀ m ∈ l, m.metric_name.isSome = true ∧ m.value.isSome = true ∧
      m.confidence.isSome = true) :
    detailsOf l = Except.ok (l.map
      (fun m => ⟨m.metric_name.getD "", m.value.getD 0, m.confidence.getD 0⟩)) := by
  induction l with
  | nil => rfl
  | cons m rest ih =>
    obtain ⟨hn, hv, hc⟩ := h m (List.mem_cons_self m rest)
    obtain ⟨n, hn'⟩ := Option.isSome_iff_exists.mp hn
    obtain ⟨v, hv'⟩ := Option.isSome_iff_exists.mp hv
    obtain ⟨c, hc'⟩ := Option.isSome_iff_exists.mp hc
    have ih' := ih (fun x hx => h x (List.mem_cons_of_mem _ hx))
    simp [detailsOf, hn', hv', hc', getKey, ih']

/-- Reduction of `calculate_category_score` when the filter comes back empty. -/
theorem calculate_category_score_empty (metrics : List PyMetric) (category : String)
    (hf : filterCategory metrics category = Except.ok []) :
    calculate_category_score metrics category =
      Except.ok { score := 50, confidence := 0, metric_count := 0, metrics := [] } := by
  unfold calculate_category_score
  rw [hf]
  rfl

/-- Reduction of `calculate_category_score` when the filter comes back
non-empty and the detail comprehension succeeds. -/
theorem calculate_category_score_of_parts (metrics : List PyMetric) (category : String)
    (l : List PyMetric) (d : List MetricDetail)
    (hf : filterCategory metrics category = Except.ok l) (hne : l ≠ [])
    (hd : detailsOf l = Except.ok d) :
    calculate_category_score metrics category = Except.ok
      { score := round2 (if 0 < totalConfidence l
            then totalWeightedScore l / totalConfidence l else 50),
        confidence := round2 (if 0 < totalConfidence l
            then totalConfidence l / l.length else 0),
        metric_count := l.length,
        metrics := d } := by
  unfold calculate_category_score
  rw [hf]
  simp [hne, hd]

/-- Reduction of `calculate_final_score` from the three category results. -/
theorem calculate_final_score_of_parts (metrics : List PyMetric)
    (env soc gov : CategoryScore)
    (he : calculate_category_score metrics "Environmental" = Except.ok env)
    (hs : calculate_category_score metrics "Social" = Except.ok soc)
    (hg : calculate_category_score metrics "Governance" = Except.ok gov) :
    calculate_final_score metrics = Except.ok
      { final_score := round2
          (env.score * (40/100) + soc.score * (35/100) + gov.score * (25/100)),
        score_level := scorer_get_score_level
          (env.score * (40/100) + soc.score * (35/100) + gov.score * (25/100)),
        confidence := round2 ((env.confidence + soc.confidence + gov.confidence) / 3),
        environmental_score := env.score,
        social_score := soc.score,
        governance_score := gov.score,
        env_breakdown := env,
        soc_breakdown := soc,
        gov_breakdown := gov } := by
  unfold calculate_final_score
  rw [he, hs, hg]
  norm_num

/-! ## Valid records and bounds -/

/-- Bounds on the scorer's two accumulated sums over a list of valid
records. -/
theorem sums_bounds (l : List PyMetric) (h : ∀ m ∈ l, ValidRecord m) :
    0 ≤ totalConfidence l ∧ totalConfidence l ≤ l.length ∧
    0 ≤ totalWeightedScore l ∧ totalWeightedScore l ≤ 100 * totalConfidence l := by
  induction l with
  | nil => simp [totalConfidence, totalWeightedScore]
  | cons m rest ih =>
    obtain ⟨ih1, ih2, ih3, ih4⟩ := ih (fun x hx => h x (List.mem_cons_of_mem _ hx))
    obtain ⟨-, -, hvS, hcS, -, hv0, hv100, hc0, hc1⟩ := h m (List.mem_cons_self m rest)
    have ev : m.value.getD 50 = m.value.getD 0 := Option_getD_congr hvS _ _
    have ec : m.confidence.getD (1/2) = m.confidence.getD 0 := Option_getD_congr hcS _ _
    simp only [totalConfidence, totalWeightedScore, List.map_cons, List.sum_cons,
      List.length_cons, Nat.cast_add, Nat.cast_one] at *
    rw [ev, ec]
    refine ⟨by linarith, by linarith, ?_, ?_⟩
    · have : 0 ≤ m.value.getD 0 * m.confidence.getD 0 := mul_nonneg hv0 hc0
      linarith
    · have : m.value.getD 0 * m.confidence.getD 0 ≤ 100 * m.confidence.getD 0 :=
        mul_le_mul_of_nonneg_right hv100 hc0
      linarith

/-- The 2-decimal rounding keeps values inside `[0, 100]`. -/
theorem round2_range_0_100 {q : ℚ} (h0 : 0 ≤ q) (h1 : q ≤ 100) :
    0 ≤ round2 q ∧ round2 q ≤ 100 := by
  have h := round2_bounds (a := 0) (b := 10000) (q := q)
    (by push_cast; linarith) (by push_cast; linarith)
  push_cast at h
  obtain ⟨ha, hb⟩ := h
  constructor <;> linarith

/-- The 2-decimal rounding keeps values inside `[0, 1]`. -/
theorem round2_range_0_1 {q : ℚ} (h0 : 0 ≤ q) (h1 : q ≤ 1) :
    0 ≤ round2 q ∧ round2 q ≤ 1 := by
  have h := round2_bounds (a := 0) (b := 100) (q := q)
    (by push_cast; linarith) (by push_cast; linarith)
  push_cast at h
  obtain ⟨ha, hb⟩ := h
  constructor <;> linarith

/-- The level lookup only ever produces a listed label or "Unknown". -/
theorem levelsLookup_mem (L : List (String × ℚ × ℚ)) (s : ℚ) :
    levelsLookup L s = "Unknown" ∨ levelsLookup L s ∈ L.map Prod.fst := by
  induction L with
  | nil => left; rfl
  | cons hd tl ih =>
    obtain ⟨level, mn, mx⟩ := hd
    simp only [levelsLookup, List.map_cons]
    split
    · right; exact List.mem_cons_self _ _
    · rcases ih with h | h
      · left; exact h
      · right; exact List.mem_cons_of_mem _ h

/-- On a list of valid records every category computation succeeds with a
score in `[0, 100]` and a confidence in `[0, 1]`. -/
theorem category_score_bounds (ms : List PyMetric) (cat : String)
    (h : ∀ m ∈ ms, ValidRecord m) :
    ∃ r, calculate_category_score ms cat = Except.ok r ∧
      0 ≤ r.score ∧ r.score ≤ 100 ∧ 0 ≤ r.confidence ∧ r.confidence ≤ 1 := by
  have hfil := filterCategory_eq_ok ms cat (fun m hm => (h m hm).1)
  by_cases hne : ms.filter (fun m => m.category = some cat) = []
  · rw [hne] at hfil
    refine ⟨_, calculate_category_score_empty ms cat hfil, by norm_num, by norm_num,
      le_refl _, by norm_num⟩
  · have hsub : ∀ m ∈ ms.filter (fun m => m.category = some cat), ValidRecord m :=
      fun m hm => h m (List.mem_of_mem_filter hm)
    have hdet := detailsOf_eq_ok _ (fun m hm =>
      ⟨(hsub m hm).2.1, (hsub m hm).2.2.1, (hsub m hm).2.2.2.1⟩)
    obtain ⟨h1, h2, h3, h4⟩ := sums_bounds _ hsub
    have hlen : (0 : ℚ) < (ms.filter (fun m => m.category = some cat)).length := by
      have := List.length_pos.mpr hne
      exact_mod_cast this
    refine ⟨_, calculate_category_score_of_parts ms cat _ _ hfil hne hdet, ?_, ?_, ?_, ?_⟩
    · by_cases h0 : 0 < totalConfidence (ms.filter (fun m => m.category = some cat))
      · simp only [if_pos h0]
        exact (round2_range_0_100 (div_nonneg h3 h1)
          ((div_le_iff₀ h0).mpr (by linarith))).1
      · simp only [if_neg h0]
        exact (round2_range_0_100 (by norm_num) (by norm_num)).1
    · by_cases h0 : 0 < totalConfidence (ms.filter (fun m => m.category = some cat))
      · simp only [if_pos h0]
        exact (round2_range_0_100 (div_nonneg h3 h1)
          ((div_le_iff₀ h0).mpr (by linarith))).2
      · simp only [if_neg h0]
        exact (round2_range_0_100 (by norm_num) (by norm_num)).2
    · by_cases h0 : 0 < totalConfidence (ms.filter (fun m => m.category = some cat))
      · simp only [if_pos h0]
        exact (round2_range_0_1 (div_nonneg h1 (le_of_lt hlen))
          ((div_le_one hlen).mpr h2)).1
      · simp only [if_neg h0]
        exact (round2_range_0_1 (by norm_num) (by norm_num)).1
    · by_cases h0 : 0 < totalConfidence (ms.filter (fun m => m.category = some cat))
      · simp only [if_pos h0]
        exact (round2_range_0_1 (div_nonneg h1 (le_of_lt hlen))
          ((div_le_one hlen).mpr h2)).2
      · simp only [if_neg h0]
        exact (round2_range_0_1 (by norm_num) (by norm_num)).2

/-! ## Claim C1 -/

theorem c1Cex_env : calculate_category_score c1CexMetrics "Environmental" =
    Except.ok ⟨8499/100, 1, 1, [⟨"E", 8499/100, 1⟩]⟩ := by
  have h := calculate_category_score_of_parts c1CexMetrics "Environmental"
    [⟨some "Environmental", some "E", some (8499/100), some 1⟩]
    [⟨"E", 8499/100, 1⟩] rfl (by simp) rfl
  rw [h]
  norm_num [totalConfidence, totalWeightedScore, round2, rint]

theorem c1Cex_soc : calculate_category_score c1CexMetrics "Social" =
    Except.ok ⟨8499/100, 1, 1, [⟨"S", 8499/100, 1⟩]⟩ := by
  have h := calculate_category_score_of_parts c1CexMetrics "Social"
    [⟨some "Social", some "S", some (8499/100), some 1⟩]
    [⟨"S", 8499/100, 1⟩] rfl (by simp) rfl
  rw [h]
  norm_num [totalConfidence, totalWeightedScore, round2, rint]

theorem c1Cex_gov : calculate_category_score c1CexMetrics "Governance" =
    Except.ok ⟨8499/100, 1, 1, [⟨"G", 8499/100, 1⟩]⟩ := by
  have h := calculate_category_score_of_parts c1CexMetrics "Governance"
    [⟨some "Governance", some "G", some (8499/100), some 1⟩]
    [⟨"G", 8499/100, 1⟩] rfl (by simp) rfl
  rw [h]
  norm_num [totalConfidence, totalWeightedScore, round2, rint]

/-- C1, counterexample: on the valid metric list `c1CexMetrics` the pipeline
returns `score_level = "Unknown"`, which is none of the five fixed labels, and
the level assignment maps 84.99 to "Unknown", not to "Good" as claimed. -/
theorem C1_counterexample :
    (calculate_final_score c1CexMetrics).map FinalScore.score_level =
      Except.ok "Unknown" ∧
    "Unknown" ∉ fiveLabels ∧
    scorer_get_score_level (8499/100) = "Unknown" := by
  refine ⟨?_, by decide, ?_⟩
  · rw [calculate_final_score_of_parts c1CexMetrics _ _ _ c1Cex_env c1Cex_soc c1Cex_gov]
    have harg : (8499/100 : ℚ) * (40/100) + (8499/100) * (35/100) + (8499/100) * (25/100)
        = 8499/100 := by norm_num
    simp only [Except.map, harg]
    norm_num [scorer_get_score_level, SCORE_LEVELS, levelsLookup]
  · norm_num [scorer_get_score_level, SCORE_LEVELS, levelsLookup]

/-- C1 (amended): for every valid metric list the final score lies in
`[0, 100]` and the level is one of the five fixed labels or the fallback
label "Unknown"; the boundary mapping sends 85.0 to "Excellent", 50.0 to
"Fair" and 29.0 to "Very Poor", but 84.99 to "Unknown" (the gap between the
"Good" band ending at 84 and the "Excellent" band starting at 85). -/
theorem C1_amended_range_and_levels :
    (∀ metrics : List PyMetric, (∀ m ∈ metrics, ValidRecord m) →
      ∃ r, calculate_final_score metrics = Except.ok r ∧
        0 ≤ r.final_score ∧ r.final_score ≤ 100 ∧
        r.score_level ∈ fiveLabels ++ ["Unknown"]) ∧
    scorer_get_score_level 85 = "Excellent" ∧
    scorer_get_score_level (8499/100) = "Unknown" ∧
    scorer_get_score_level 50 = "Fair" ∧
    scorer_get_score_level 29 = "Very Poor" := by
  refine ⟨?_, ?_, ?_, ?_, ?_⟩
  · intro metrics h
    obtain ⟨env, he, he0, he100, _, _⟩ := category_score_bounds metrics "Environmental" h
    obtain ⟨soc, hs, hs0, hs100, _, _⟩ := category_score_bounds metrics "Social" h
    obtain ⟨gov, hg, hg0, hg100, _, _⟩ := category_score_bounds metrics "Governance" h
    refine ⟨_, calculate_final_score_of_parts metrics env soc gov he hs hg, ?_, ?_, ?_⟩
    · exact (round2_range_0_100 (by linarith) (by linarith)).1
    · exact (round2_range_0_100 (by linarith) (by linarith)).2
    · rcases levelsLookup_mem SCORE_LEVELS
        (env.score * (40/100) + soc.score * (35/100) + gov.score * (25/100)) with h' | h'
      · rw [scorer_get_score_level, h']
        simp [fiveLabels]
      · rw [scorer_get_score_level]
        simp only [fiveLabels, List.mem_append]
        left
        simpa [SCORE_LEVELS, fiveLabels] using h'
  · norm_num [scorer_get_score_level, SCORE_LEVELS, levelsLookup]
  · norm_num [scorer_get_score_level, SCORE_LEVELS, levelsLookup]
  · norm_num [scorer_get_score_level, SCORE_LEVELS, levelsLookup]
  · norm_num [scorer_get_score_level, SCORE_LEVELS, levelsLookup]

/-- C1, witness: the amended theorem applied to a concrete valid list. -/
theorem C1_witness :
    ∃ r, calculate_final_score
      [⟨some "Environmental", some "E", some 80, some 1⟩] = Except.ok r ∧
      0 ≤ r.final_score ∧ r.final_score ≤ 100 ∧
      r.score_level ∈ fiveLabels ++ ["Unknown"] :=
  C1_amended_range_and_levels.1 _ (by
    intro m hm
    simp only [List.mem_singleton] at hm
    subst hm
    norm_num [ValidRecord, CATEGORY_NAMES])

/-! ## Claim C2 -/

/-- On the five closed bands of `SCORE_LEVELS` the scorer's lookup and the
presentation layer's `>=`-cascade agree. -/
theorem level_agree_on_bands (s : ℚ)
    (h : (0 ≤ s ∧ s ≤ 29) ∨ (30 ≤ s ∧ s ≤ 49) ∨ (50 ≤ s ∧ s ≤ 69) ∨
         (70 ≤ s ∧ s ≤ 84) ∨ (85 ≤ s ∧ s ≤ 100)) :
    scorer_get_score_level s = pdf_get_score_level s := by
  simp only [scorer_get_score_level, SCORE_LEVELS, levelsLookup, pdf_get_score_level,
    ge_iff_le]
  by_cases c85 : 85 ≤ s
  · have hb : s ≤ 100 := by
      rcases h with ⟨h1, h2⟩ | ⟨h1, h2⟩ | ⟨h1, h2⟩ | ⟨h1, h2⟩ | ⟨h1, h2⟩ <;> linarith
    rw [if_pos ⟨c85, hb⟩, if_pos c85]
  · by_cases c70 : 70 ≤ s
    · have hb : s ≤ 84 := by
        rcases h with ⟨h1, h2⟩ | ⟨h1, h2⟩ | ⟨h1, h2⟩ | ⟨h1, h2⟩ | ⟨h1, h2⟩ <;> linarith
      rw [if_neg (fun hh => c85 hh.1), if_pos ⟨c70, hb⟩, if_neg c85, if_pos c70]
    · by_cases c50 : 50 ≤ s
      · have hb : s ≤ 69 := by
          rcases h with ⟨h1, h2⟩ | ⟨h1, h2⟩ | ⟨h1, h2⟩ | ⟨h1, h2⟩ | ⟨h1, h2⟩ <;> linarith
        rw [if_neg (fun hh => c85 hh.1), if_neg (fun hh => c70 hh.1), if_pos ⟨c50, hb⟩,
            if_neg c85, if_neg c70, if_pos c50]
      · by_cases c30 : 30 ≤ s
        · have hb : s ≤ 49 := by
            rcases h with ⟨h1, h2⟩ | ⟨h1, h2⟩ | ⟨h1, h2⟩ | ⟨h1, h2⟩ | ⟨h1, h2⟩ <;> linarith
          rw [if_neg (fun hh => c85 hh.1), if_neg (fun hh => c70 hh.1),
              if_neg (fun hh => c50 hh.1), if_pos ⟨c30, hb⟩,
              if_neg c85, if_neg c70, if_neg c50, if_pos c30]
        · have c30' : s < 30 := lt_of_not_le c30
          have h0 : 0 ≤ s ∧ s ≤ 29 := by
            rcases h with ⟨h1, h2⟩ | ⟨h1, h2⟩ | ⟨h1, h2⟩ | ⟨h1, h2⟩ | ⟨h1, h2⟩ <;>
              exact ⟨by linarith, by linarith⟩
          rw [if_neg (fun hh => c85 hh.1), if_neg (fun hh => c70 hh.1),
              if_neg (fun hh => c50 hh.1), if_neg (fun hh => c30 hh.1), if_pos h0,
              if_neg c85, if_neg c70, if_neg c50, if_neg c30]

/-- C2, counterexample: at score 84.99 the scorer's level is "Unknown" while
both presentation-layer copies return "Good" — the three implementations are
not extensionally equal. -/
theorem C2_counterexample :
    scorer_get_score_level (8499/100) = "Unknown" ∧
    pdf_get_score_level (8499/100) = "Good" ∧
    sidebar_get_score_level (8499/100) = "Good" ∧
    ("Unknown" : String) ≠ "Good" := by
  refine ⟨?_, ?_, ?_, by decide⟩
  · norm_num [scorer_get_score_level, SCORE_LEVELS, levelsLookup]
  · norm_num [pdf_get_score_level]
  · norm_num [sidebar_get_score_level]

/-- C2 (amended): the PDF generator's and the sidebar's level functions are
extensionally equal, and both agree with the scorer's level at every score
inside one of the scorer's five closed bands; the implementations differ only
on the gaps between bands (and below 0 / above 100). -/
theorem C2_amended_duplicated_levels :
    (∀ score : ℚ, pdf_get_score_level score = sidebar_get_score_level score) ∧
    (∀ score : ℚ,
      (0 ≤ score ∧ score ≤ 29) ∨ (30 ≤ score ∧ score ≤ 49) ∨
      (50 ≤ score ∧ score ≤ 69) ∨ (70 ≤ score ∧ score ≤ 84) ∨
      (85 ≤ score ∧ score ≤ 100) →
      scorer_get_score_level score = pdf_get_score_level score ∧
      scorer_get_score_level score = sidebar_get_score_level score) := by
  refine ⟨fun _ => rfl, fun s h => ?_⟩
  have hagree := level_agree_on_bands s h
  exact ⟨hagree, hagree.trans rfl⟩

/-- C2, witness: the amended agreement applied at the in-band score 75. -/
theorem C2_witness :
    scorer_get_score_level 75 = pdf_get_score_level 75 ∧
    scorer_get_score_level 75 = sidebar_get_score_level 75 :=
  C2_amended_duplicated_levels.2 75 (by norm_num)

/-! ## Claim C3 -/

/-- C3: a record of the target category that lacks its `value` (resp.
`confidence`) key makes `calculate_category_score` raise `KeyError` while
building the per-metric detail list — the `.get` fallbacks of the summation
loop do not protect the detail comprehension, contradicting the documented
defensive behaviour. -/
theorem C3_keyerror_on_missing_field :
    calculate_category_score
      [⟨some "Environmental", some "A", none, some (8/10)⟩] "Environmental" =
      Except.error "KeyError: value" ∧
    calculate_category_score
      [⟨some "Environmental", some "B", some 80, none⟩] "Environmental" =
      Except.error "KeyError: confidence" := ⟨rfl, rfl⟩

/-! ## Claim C10 -/

/-- C10: the level is taken from the unrounded weighted average while the
reported `final_score` is the rounded value, so on `c10Metrics` the pipeline
reports `final_score = 85.0` with `score_level = "Unknown"` (computed from
84.9975), which differs from the level of the reported score itself. -/
theorem C10_level_from_unrounded_score :
    (calculate_final_score c10Metrics).map
        (fun r => (r.final_score, r.score_level)) = Except.ok (85, "Unknown") ∧
    (85 : ℚ) * (40/100) + 85 * (35/100) + (8499/100) * (25/100) = 849975/10000 ∧
    scorer_get_score_level 85 = "Excellent" ∧
    ("Unknown" : String) ≠ "Excellent" := by
  refine ⟨?_, by norm_num, ?_, by decide⟩
  · have he : calculate_category_score c10Metrics "Environmental" =
        Except.ok ⟨85, 1, 1, [⟨"E", 85, 1⟩]⟩ := by
      have h := calculate_category_score_of_parts c10Metrics "Environmental"
        [⟨some "Environmental", some "E", some 85, some 1⟩] [⟨"E", 85, 1⟩]
        rfl (by simp) rfl
      rw [h]
      norm_num [totalConfidence, totalWeightedScore, round2, rint]
    have hsc : calculate_category_score c10Metrics "Social" =
        Except.ok ⟨85, 1, 1, [⟨"S", 85, 1⟩]⟩ := by
      have h := calculate_category_score_of_parts c10Metrics "Social"
        [⟨some "Social", some "S", some 85, some 1⟩] [⟨"S", 85, 1⟩]
        rfl (by simp) rfl
      rw [h]
      norm_num [totalConfidence, totalWeightedScore, round2, rint]
    have hgv : calculate_category_score c10Metrics "Governance" =
        Except.ok ⟨8499/100, 1, 1, [⟨"G", 8499/100, 1⟩]⟩ := by
      have h := calculate_category_score_of_parts c10Metrics "Governance"
        [⟨some "Governance", some "G", some (8499/100), some 1⟩] [⟨"G", 8499/100, 1⟩]
        rfl (by simp) rfl
      rw [h]
      norm_num [totalConfidence, totalWeightedScore, round2, rint]
    rw [calculate_final_score_of_parts c10Metrics _ _ _ he hsc hgv]
    have harg : (85 : ℚ) * (40/100) + 85 * (35/100) + (8499/100) * (25/100)
        = 849975/10000 := by norm_num
    simp only [Except.map, harg]
    norm_num [round2, rint, scorer_get_score_level, SCORE_LEVELS, levelsLookup]
  · norm_num [scorer_get_score_level, SCORE_LEVELS, levelsLookup]

/-! ## Claim C4 -/

theorem totalConfidence_eq_sumConfidence (l : List PyMetric)
    (h : ∀ m ∈ l, m.confidence.isSome = true) :
    totalConfidence l = sumConfidence l := by
  induction l with
  | nil => rfl
  | cons m rest ih =>
    have hm := Option_getD_congr (h m (List.mem_cons_self m rest)) (1/2 : ℚ) 0
    have ih' := ih (fun x hx => h x (List.mem_cons_of_mem _ hx))
    simp only [totalConfidence, sumConfidence, List.map_cons, List.sum_cons] at *
    rw [hm, ih']

theorem totalWeightedScore_eq_sum (l : List PyMetric)
    (h : ∀ m ∈ l, m.value.isSome = true ∧ m.confidence.isSome = true) :
    totalWeightedScore l = sumValueTimesConfidence l := by
  induction l with
  | nil => rfl
  | cons m rest ih =>
    have hv := Option_getD_congr (h m (List.mem_cons_self m rest)).1 (50 : ℚ) 0
    have hc := Option_getD_congr (h m (List.mem_cons_self m rest)).2 (1/2 : ℚ) 0
    have ih' := ih (fun x hx => h x (List.mem_cons_of_mem _ hx))
    simp only [totalWeightedScore, sumValueTimesConfidence, List.map_cons,
      List.sum_cons] at *
    rw [hv, hc, ih']

/-- C4: with all keys present, the category computation returns the neutral
record on an empty filter, and otherwise the confidence-weighted score
`round(Σ v·c / Σ c, 2)`, the simple-mean confidence `round(Σ c / n, 2)`
(falling back to 50.0 / 0.0 when `Σ c = 0`), the metric count, and the
per-metric details in filter order; on the two-metric Environmental example
the result is score 48.0 with confidence 0.5. -/
theorem C4_category_score_formula :
    (∀ (metrics : List PyMetric) (category : String),
      allKeysPresent metrics →
      ∃ r, calculate_category_score metrics category = Except.ok r ∧
        (metrics.filter (fun m => m.category = some category) = [] →
          r = ⟨50, 0, 0, []⟩) ∧
        (∀ l, metrics.filter (fun m => m.category = some category) = l → l ≠ [] →
          r.metric_count = l.length ∧
          r.metrics = l.map
            (fun m => ⟨m.metric_name.getD "", m.value.getD 0, m.confidence.getD 0⟩) ∧
          (0 < sumConfidence l →
            r.score = round2 (sumValueTimesConfidence l / sumConfidence l) ∧
            r.confidence = round2 (sumConfidence l / l.length)) ∧
          (sumConfidence l = 0 → r.score = 50 ∧ r.confidence = 0))) ∧
    calculate_category_score
      [⟨some "Environmental", some "A", some 80, some (2/10)⟩,
       ⟨some "Environmental", some "B", some 40, some (8/10)⟩] "Environmental"
      = Except.ok ⟨48, 1/2, 2, [⟨"A", 80, 1/5⟩, ⟨"B", 40, 4/5⟩]⟩ := by
  constructor
  · intro ms cat h
    have hfil := filterCategory_eq_ok ms cat (fun m hm => (h m hm).1)
    by_cases hne : ms.filter (fun m => m.category = some cat) = []
    · rw [hne] at hfil
      exact ⟨_, calculate_category_score_empty ms cat hfil, fun _ => rfl,
        fun l hl hlne => absurd (hne ▸ hl).symm hlne⟩
    · have hsub : ∀ m ∈ ms.filter (fun m => m.category = some cat),
          m.category.isSome = true ∧ m.metric_name.isSome = true ∧
          m.value.isSome = true ∧ m.confidence.isSome = true :=
        fun m hm => h m (List.mem_of_mem_filter hm)
      have hdet := detailsOf_eq_ok _ (fun m hm =>
        ⟨(hsub m hm).2.1, (hsub m hm).2.2.1, (hsub m hm).2.2.2⟩)
      have htc := totalConfidence_eq_sumConfidence _
        (fun m hm => (hsub m hm).2.2.2)
      have htw := totalWeightedScore_eq_sum _
        (fun m hm => ⟨(hsub m hm).2.2.1, (hsub m hm).2.2.2⟩)
      refine ⟨_, calculate_category_score_of_parts ms cat _ _ hfil hne hdet,
        fun he => absurd he hne, ?_⟩
      intro l hl hlne
      subst hl
      refine ⟨rfl, rfl, ?_, ?_⟩
      · intro hpos
        have hpos' : 0 < totalConfidence
            (ms.filter (fun m => m.category = some cat)) := htc ▸ hpos
        constructor
        · show round2 (if 0 < totalConfidence (ms.filter (fun m => m.category = some cat))
              then totalWeightedScore (ms.filter (fun m => m.category = some cat)) /
                totalConfidence (ms.filter (fun m => m.category = some cat)) else 50) = _
          rw [if_pos hpos', htw, htc]
        · show round2 (if 0 < totalConfidence (ms.filter (fun m => m.category = some cat))
              then totalConfidence (ms.filter (fun m => m.category = some cat)) /
                (ms.filter (fun m => m.category = some cat)).length else 0) = _
          rw [if_pos hpos', htc]
      · intro hzero
        have hzero' : ¬ 0 < totalConfidence
            (ms.filter (fun m => m.category = some cat)) := by
          rw [htc, hzero]
          exact lt_irrefl 0
        constructor
        · show round2 (if 0 < totalConfidence (ms.filter (fun m => m.category = some cat))
              then totalWeightedScore (ms.filter (fun m => m.category = some cat)) /
                totalConfidence (ms.filter (fun m => m.category = some cat)) else 50) = _
          rw [if_neg hzero']
          norm_num [round2, rint]
        · show round2 (if 0 < totalConfidence (ms.filter (fun m => m.category = some cat))
              then totalConfidence (ms.filter (fun m => m.category = some cat)) /
                (ms.filter (fun m => m.category = some cat)).length else 0) = _
          rw [if_neg hzero']
          norm_num [round2, rint]
  · have h := calculate_category_score_of_parts
      [⟨some "Environmental", some "A", some 80, some (2/10)⟩,
       ⟨some "Environmental", some "B", some 40, some (8/10)⟩] "Environmental"
      [⟨some "Environmental", some "A", some 80, some (2/10)⟩,
       ⟨some "Environmental", some "B", some 40, some (8/10)⟩]
      [⟨"A", 80, 2/10⟩, ⟨"B", 40, 8/10⟩] rfl (by simp) rfl
    rw [h]
    norm_num [totalConfidence, totalWeightedScore, round2, rint]

/-- C4, witness: the formula theorem applied to the two-metric example. -/
theorem C4_witness :
    ∃ r, calculate_category_score
      [⟨some "Environmental", some "A", some 80, some (2/10)⟩,
       ⟨some "Environmental", some "B", some 40, some (8/10)⟩] "Environmental"
      = Except.ok r ∧
      (([⟨some "Environmental", some "A", some 80, some (2/10)⟩,
         ⟨some "Environmental", some "B", some 40, some (8/10)⟩]
           : List PyMetric).filter
         (fun m => m.category = some "Environmental") = [] → r = ⟨50, 0, 0, []⟩) :=
  match C4_category_score_formula.1
    [⟨some "Environmental", some "A", some 80, some (2/10)⟩,
     ⟨some "Environmental", some "B", some 40, some (8/10)⟩] "Environmental"
    (by intro m hm; fin_cases hm <;> simp) with
  | ⟨r, hok, hemp, _⟩ => ⟨r, hok, hemp⟩

/-! ## Claim C5 -/

theorem c5_env : calculate_category_score c5Metrics "Environmental" =
    Except.ok ⟨80, 1, 1, [⟨"E", 80, 1⟩]⟩ := by
  have h := calculate_category_score_of_parts c5Metrics "Environmental"
    [⟨some "Environmental", some "E", some 80, some 1⟩] [⟨"E", 80, 1⟩]
    rfl (by simp) rfl
  rw [h]
  norm_num [totalConfidence, totalWeightedScore, round2, rint]

theorem c5_soc : calculate_category_score c5Metrics "Social" =
    Except.ok ⟨70, 1, 1, [⟨"S", 70, 1⟩]⟩ := by
  have h := calculate_category_score_of_parts c5Metrics "Social"
    [⟨some "Social", some "S", some 70, some 1⟩] [⟨"S", 70, 1⟩]
    rfl (by simp) rfl
  rw [h]
  norm_num [totalConfidence, totalWeightedScore, round2, rint]

theorem c5_gov : calculate_category_score c5Metrics "Governance" =
    Except.ok ⟨60, 1, 1, [⟨"G", 60, 1⟩]⟩ := by
  have h := calculate_category_score_of_parts c5Metrics "Governance"
    [⟨some "Governance", some "G", some 60, some 1⟩] [⟨"G", 60, 1⟩]
    rfl (by simp) rfl
  rw [h]
  norm_num [totalConfidence, totalWeightedScore, round2, rint]

/-- C5: the final score is the category scores weighted 0.40 / 0.35 / 0.25 and
divided by the weight sum (which is 1, so the 50.0 fallback is dead code), the
overall confidence is the unweighted mean of the three category confidences,
and the worked example 80 / 70 / 60 yields 71.5 with level "Good". -/
theorem C5_final_score_formula :
    (∀ (metrics : List PyMetric) (env soc gov : CategoryScore),
      calculate_category_score metrics "Environmental" = Except.ok env →
      calculate_category_score metrics "Social" = Except.ok soc →
      calculate_category_score metrics "Governance" = Except.ok gov →
      ∃ r, calculate_final_score metrics = Except.ok r ∧
        r.final_score = round2 ((env.score * (40/100) + soc.score * (35/100) +
          gov.score * (25/100)) / (40/100 + 35/100 + 25/100)) ∧
        r.confidence = round2 ((env.confidence + soc.confidence + gov.confidence) / 3) ∧
        r.score_level = scorer_get_score_level ((env.score * (40/100) +
          soc.score * (35/100) + gov.score * (25/100)) / (40/100 + 35/100 + 25/100))) ∧
    (∃ r, calculate_final_score c5Metrics = Except.ok r ∧
      r.final_score = 143/2 ∧ r.score_level = "Good" ∧ r.confidence = 1) := by
  constructor
  · intro metrics env soc gov he hs hg
    refine ⟨_, calculate_final_score_of_parts metrics env soc gov he hs hg, ?_, rfl, ?_⟩
    · show round2 (env.score * (40/100) + soc.score * (35/100) + gov.score * (25/100)) = _
      rw [show (40/100 + 35/100 + 25/100 : ℚ) = 1 by norm_num, div_one]
    · show scorer_get_score_level
        (env.score * (40/100) + soc.score * (35/100) + gov.score * (25/100)) = _
      rw [show (40/100 + 35/100 + 25/100 : ℚ) = 1 by norm_num, div_one]
  · refine ⟨_, calculate_final_score_of_parts c5Metrics _ _ _ c5_env c5_soc c5_gov,
      ?_, ?_, ?_⟩
    · show round2 ((80 : ℚ) * (40/100) + 70 * (35/100) + 60 * (25/100)) = 143/2
      norm_num [round2, rint]
    · show scorer_get_score_level
        ((80 : ℚ) * (40/100) + 70 * (35/100) + 60 * (25/100)) = "Good"
      norm_num [scorer_get_score_level, SCORE_LEVELS, levelsLookup]
    · show round2 (((1 : ℚ) + 1 + 1) / 3) = 1
      norm_num [round2, rint]

/-- C5, witness: the combination formula applied to the worked example. -/
theorem C5_witness :
    ∃ r, calculate_final_score c5Metrics = Except.ok r ∧
      r.final_score = round2 (((80 : ℚ) * (40/100) + 70 * (35/100) +
        60 * (25/100)) / (40/100 + 35/100 + 25/100)) ∧
      r.confidence = round2 (((1 : ℚ) + 1 + 1) / 3) ∧
      r.score_level = scorer_get_score_level (((80 : ℚ) * (40/100) +
        70 * (35/100) + 60 * (25/100)) / (40/100 + 35/100 + 25/100)) :=
  C5_final_score_formula.1 c5Metrics ⟨80, 1, 1, [⟨"E", 80, 1⟩]⟩
    ⟨70, 1, 1, [⟨"S", 70, 1⟩]⟩ ⟨60, 1, 1, [⟨"G", 60, 1⟩]⟩ c5_env c5_soc c5_gov

/-! ## Claim C6 -/

/-- C6: the cache gate returns `None` exactly when the company is absent, the
research date is older than `now - days`, the source list is empty, or no
score record exists; otherwise it returns the 4-tuple (with the metric list
passed through untested, so empty metrics never invalidate).  The three spec
scenarios (8 days old / 6 days old / fresh but sourceless) behave as stated —
the 6-day scenario has an empty metric list and is still served. -/
theorem C6_cache_gate :
    (∀ (db : CacheView) (now days : ℚ),
      (get_recent_analysis db now days = none ↔
        db.company = none ∨
        (∃ c, db.company = some c ∧ c.research_date < now - days) ∨
        db.sources = [] ∨ db.score = none) ∧
      (∀ c sc, db.company = some c → ¬ c.research_date < now - days →
        db.sources ≠ [] → db.score = some sc →
        get_recent_analysis db now days = some (c, db.sources, db.metrics, sc))) ∧
    get_recent_analysis ⟨some ⟨0⟩, ["s"], [], some 72⟩ 8 7 = none ∧
    get_recent_analysis ⟨some ⟨0⟩, ["s"], [], some 72⟩ 6 7 =
      some (⟨0⟩, ["s"], [], 72) ∧
    get_recent_analysis ⟨some ⟨0⟩, [], ["m"], some 72⟩ 1 7 = none := by
  refine ⟨?_, ?_, ?_, ?_⟩
  · intro db now days
    constructor
    · constructor
      · intro hnone
        cases hcomp : db.company with
        | none => exact Or.inl rfl
        | some c =>
          simp only [get_recent_analysis, hcomp] at hnone
          by_cases hd : c.research_date < now - days
          · exact Or.inr (Or.inl ⟨c, rfl, hd⟩)
          · rw [if_neg hd] at hnone
            by_cases hsrc : db.sources = []
            · exact Or.inr (Or.inr (Or.inl hsrc))
            · rw [if_neg hsrc] at hnone
              cases hsc : db.score with
              | none => exact Or.inr (Or.inr (Or.inr rfl))
              | some sc =>
                rw [hsc] at hnone
                simp at hnone
      · intro hr
        rcases hr with h | ⟨c, hc, hd⟩ | h | h
        · simp [get_recent_analysis, h]
        · simp [get_recent_analysis, hc, hd]
        · cases hcomp : db.company with
          | none => simp [get_recent_analysis, hcomp]
          | some c => simp [get_recent_analysis, hcomp, h]
        · cases hcomp : db.company with
          | none => simp [get_recent_analysis, hcomp]
          | some c => simp [get_recent_analysis, hcomp, h]
    · intro c sc hcomp hd hsrc hsc
      simp [get_recent_analysis, hcomp, hd, hsrc, hsc]
  · norm_num [get_recent_analysis]
  · norm_num [get_recent_analysis]
  · norm_num [get_recent_analysis]

/-- C6, witness: the valid-cache direction applied to the 6-days-old view. -/
theorem C6_witness :
    get_recent_analysis ⟨some ⟨0⟩, ["s"], ["m"], some 72⟩ 6 7 =
      some (⟨0⟩, ["s"], ["m"], 72) :=
  (C6_cache_gate.1 ⟨some ⟨0⟩, ["s"], ["m"], some 72⟩ 6 7).2 ⟨0⟩ 72 rfl
    (by norm_num) (by simp) rfl

/-! ## Claim C7 -/

theorem validate_metrics_eq_spec (ms : List RawMetric) :
    validate_metrics ms = validateMetricsFromSpec ms := by
  induction ms with
  | nil => rfl
  | cons m rest ih =>
    rcases m with ⟨mc, mn, mv, mcf⟩
    cases mc with
    | none =>
      simpa [validate_metrics, validateMetricsFromSpec, keepsRecord,
        List.filter_cons] using ih
    | some cat =>
      cases mn with
      | none =>
        simpa [validate_metrics, validateMetricsFromSpec, keepsRecord,
          List.filter_cons] using ih
      | some name =>
        cases mv with
        | none =>
          simpa [validate_metrics, validateMetricsFromSpec, keepsRecord,
            List.filter_cons] using ih
        | some v =>
          cases mcf with
          | none =>
            simpa [validate_metrics, validateMetricsFromSpec, keepsRecord,
              List.filter_cons] using ih
          | some c =>
            by_cases hcat : cat ∈ CATEGORY_NAMES
            · simp [validate_metrics, validateMetricsFromSpec, keepsRecord,
                cleanRecord, List.filter_cons, hcat, ih]
            · simp [validate_metrics, validateMetricsFromSpec, keepsRecord,
                List.filter_cons, hcat, ih]

/-- C7: the validator keeps exactly the records with all four required fields
and a recognized category (dropping, never defaulting, the rest), clamps and
rounds the kept values into range; 150 clamps to 100, -0.3 clamps to 0, a
non-coercible "N/A" value becomes 50.0. -/
theorem C7_validator :
    (∀ ms : List RawMetric, validate_metrics ms = validateMetricsFromSpec ms) ∧
    (∀ (ms : List RawMetric) (v : ValidMetric), v ∈ validate_metrics ms →
      v.category ∈ CATEGORY_NAMES ∧ 0 ≤ v.value ∧ v.value ≤ 100 ∧
      0 ≤ v.confidence ∧ v.confidence ≤ 1) ∧
    validate_metrics
      [⟨some "Environmental", some "X", some (PyVal.num 150), some (PyVal.num (3/10))⟩]
      = [⟨"Environmental", "X", 100, 3/10⟩] ∧
    validate_metrics
      [⟨some "Social", some "Y", some (PyVal.num 60), some (PyVal.num (-3/10))⟩]
      = [⟨"Social", "Y", 60, 0⟩] ∧
    validate_metrics
      [⟨some "Governance", some "Z", some (PyVal.nonNum "N/A"), some (PyVal.num 1)⟩]
      = [⟨"Governance", "Z", 50, 1⟩] ∧
    validate_metrics
      [⟨none, some "W", some (PyVal.num 10), some (PyVal.num 1)⟩,
       ⟨some "Unknown Cat", some "V", some (PyVal.num 10), some (PyVal.num 1)⟩]
      = [] := by
  refine ⟨validate_metrics_eq_spec, ?_, ?_, ?_, ?_, ?_⟩
  · intro ms v hv
    rw [validate_metrics_eq_spec] at hv
    obtain ⟨m, hm, rfl⟩ := List.mem_map.mp hv
    obtain ⟨-, hkeep⟩ := List.mem_filter.mp hm
    simp only [keepsRecord, Bool.and_eq_true, decide_eq_true_eq] at hkeep
    refine ⟨hkeep.2, ?_⟩
    have hval : 0 ≤ (cleanRecord m).value ∧ (cleanRecord m).value ≤ 100 := by
      show 0 ≤ round2 _ ∧ round2 _ ≤ 100
      cases hpf : pyFloat (m.value.getD (PyVal.nonNum "")) with
      | none => exact round2_range_0_100 (by norm_num) (by norm_num)
      | some q =>
        exact round2_range_0_100 (le_max_left 0 _)
          (max_le (by norm_num) (min_le_left 100 q))
    have hconf : 0 ≤ (cleanRecord m).confidence ∧ (cleanRecord m).confidence ≤ 1 := by
      show 0 ≤ round2 _ ∧ round2 _ ≤ 1
      cases hpf : pyFloat (m.confidence.getD (PyVal.nonNum "")) with
      | none => exact round2_range_0_1 (by norm_num) (by norm_num)
      | some q =>
        exact round2_range_0_1 (le_max_left 0 _)
          (max_le (by norm_num) (min_le_left 1 q))
    exact ⟨hval.1, hval.2, hconf.1, hconf.2⟩
  · norm_num [validate_metrics, CATEGORY_NAMES, pyFloat, min_def, max_def, round2, rint]
  · norm_num [validate_metrics, CATEGORY_NAMES, pyFloat, min_def, max_def, round2, rint]
  · norm_num [validate_metrics, CATEGORY_NAMES, pyFloat, min_def, max_def, round2, rint]
  · norm_num [validate_metrics, CATEGORY_NAMES]
    decide

/-- C7, witness: the range consequence applied to the clamping example. -/
theorem C7_witness :
    (⟨"Environmental", "X", 100, 3/10⟩ : ValidMetric).category ∈ CATEGORY_NAMES ∧
    0 ≤ (⟨"Environmental", "X", 100, 3/10⟩ : ValidMetric).value ∧
    (⟨"Environmental", "X", 100, 3/10⟩ : ValidMetric).value ≤ 100 ∧
    0 ≤ (⟨"Environmental", "X", 100, 3/10⟩ : ValidMetric).confidence ∧
    (⟨"Environmental", "X", 100, 3/10⟩ : ValidMetric).confidence ≤ 1 := by
  have h := C7_validator
  refine h.2.1
    [⟨some "Environmental", some "X", some (PyVal.num 150), some (PyVal.num (3/10))⟩]
    ⟨"Environmental", "X", 100, 3/10⟩ ?_
  rw [h.2.2.1]
  exact List.mem_singleton.mpr rfl

/-! ## Claim C8 -/

/-- C8: both `except` arms return the default set (no error escapes), and the
default set is exactly one neutral record — value 50.0, confidence 0.1 — per
each of the fifteen schema names, five per category. -/
theorem C8_default_metrics_on_failure :
    extract_metrics ExtractionOutcome.failure = get_default_metrics ∧
    get_default_metrics =
      [⟨"Environmental", "Carbon Emissions Reduction", 50, 1/10⟩,
       ⟨"Environmental", "Renewable Energy Usage", 50, 1/10⟩,
       ⟨"Environmental", "Waste Management", 50, 1/10⟩,
       ⟨"Environmental", "Water Conservation", 50, 1/10⟩,
       ⟨"Environmental", "Sustainable Materials", 50, 1/10⟩,
       ⟨"Social", "Labor Practices", 50, 1/10⟩,
       ⟨"Social", "Diversity and Inclusion", 50, 1/10⟩,
       ⟨"Social", "Community Impact", 50, 1/10⟩,
       ⟨"Social", "Human Rights", 50, 1/10⟩,
       ⟨"Social", "Employee Well-being", 50, 1/10⟩,
       ⟨"Governance", "Board Independence", 50, 1/10⟩,
       ⟨"Governance", "Ethics and Compliance", 50, 1/10⟩,
       ⟨"Governance", "Transparency and Reporting", 50, 1/10⟩,
       ⟨"Governance", "Risk Management", 50, 1/10⟩,
       ⟨"Governance", "Stakeholder Engagement", 50, 1/10⟩] ∧
    get_default_metrics.length = 15 ∧
    (get_default_metrics.filter (fun v => v.category = "Environmental")).length = 5 ∧
    (get_default_metrics.filter (fun v => v.category = "Social")).length = 5 ∧
    (get_default_metrics.filter (fun v => v.category = "Governance")).length = 5 :=
  ⟨rfl, rfl, rfl, rfl, rfl, rfl⟩

/-! ## Claim C9 -/

/-- C9: the recommendation list equals the spec's description — severity
header first (Critical below 50, Important below 70), then per category in
the fixed order a Priority line (score < 60) and at most two Focus lines
(metric value < 50, stored order), everything truncated to 5 — and in
particular never exceeds 5 entries. -/
theorem C9_recommendations :
    ∀ scores : FinalScore,
      get_recommendations scores = recommendationsFromSpec scores ∧
      (get_recommendations scores).length ≤ 5 := by
  intro s
  constructor
  · simp only [get_recommendations, recommendationsFromSpec]
    by_cases h50 : s.final_score < 50
    · rw [if_pos h50, if_pos (show s.final_score < 70 by linarith), if_pos h50]
      rfl
    · rw [if_neg h50]
      by_cases h70 : s.final_score < 70
      · rw [if_pos h70, if_pos h70, if_neg h50]
        rfl
      · rw [if_neg h70, if_neg h70]
        simp
  · simp only [get_recommendations]
    rw [List.length_take]
    exact min_le_left _ _

/-- C9, witness: the recommendation characterization applied to a concrete
score structure with one weak category per kind of line. -/
theorem C9_witness :
    get_recommendations ⟨40, "Poor", 1, 40, 55, 70,
        ⟨40, 1, 1, [⟨"a", 30, 1⟩, ⟨"b", 20, 1⟩, ⟨"c", 10, 1⟩]⟩,
        ⟨55, 1, 1, [⟨"d", 45, 1⟩]⟩, ⟨70, 1, 1, []⟩⟩ =
      recommendationsFromSpec ⟨40, "Poor", 1, 40, 55, 70,
        ⟨40, 1, 1, [⟨"a", 30, 1⟩, ⟨"b", 20, 1⟩, ⟨"c", 10, 1⟩]⟩,
        ⟨55, 1, 1, [⟨"d", 45, 1⟩]⟩, ⟨70, 1, 1, []⟩⟩ ∧
    (get_recommendations ⟨40, "Poor", 1, 40, 55, 70,
        ⟨40, 1, 1, [⟨"a", 30, 1⟩, ⟨"b", 20, 1⟩, ⟨"c", 10, 1⟩]⟩,
        ⟨55, 1, 1, [⟨"d", 45, 1⟩]⟩, ⟨70, 1, 1, []⟩⟩).length ≤ 5 :=
  C9_recommendations ⟨40, "Poor", 1, 40, 55, 70,
    ⟨40, 1, 1, [⟨"a", 30, 1⟩, ⟨"b", 20, 1⟩, ⟨"c", 10, 1⟩]⟩,
    ⟨55, 1, 1, [⟨"d", 45, 1⟩]⟩, ⟨70, 1, 1, []⟩⟩

end ESG
